import Mathlib

/-!
Shallow embedding of `scrapper.py` (ContentWebScrapper) from khoben/webscrapper.

The HTML document handed to the scrapper is modelled as a rose tree of
element and text nodes (the parsed BeautifulSoup tree).  The resolution
functions `get_target` / `get_attr` / `get_text`, the load poller
`check_page_loaded` and the driver `run` are translated directly from the
source; Python runtime failures (AttributeError on `None`, NameError on the
undefined global `init_selenium_driver`, UnboundLocalError when the rule
loop never assigns `tag`, ValueError raises) surface as an explicit error
type, so the embedding is total.
-/

namespace WebScrapper

mutual
/-- A node of the parsed HTML tree: a text node, or an element with a tag
name, an attribute dictionary and an ordered child list. -/
inductive Node where
  | text : String → Node
  | elem : String → List (String × String) → NodeList → Node
inductive NodeList where
  | nil : NodeList
  | cons : Node → NodeList → NodeList
end

/-- The parsed document (the BeautifulSoup object): its top-level nodes. -/
abbrev Doc := NodeList

/-- Tag name of a node (text nodes have none). -/
def nameOf : Node → String
  | .text _ => ""
  | .elem n _ _ => n

/-- Attribute dictionary of a node (text nodes have none). -/
def attrsOf : Node → List (String × String)
  | .text _ => []
  | .elem _ a _ => a

mutual
/-- All element nodes of the tree in document (pre)order, as visited by
BeautifulSoup's `find` / `find_all`. -/
def elemsOfNode : Node → List Node
  | .text _ => []
  | .elem n a cs => .elem n a cs :: elemsOfList cs
def elemsOfList : NodeList → List Node
  | .nil => []
  | .cons x xs => elemsOfNode x ++ elemsOfList xs
end

mutual
/-- `tag.get_text()`: concatenation of all descendant text nodes, in order,
with no separator. -/
def textOfNode : Node → String
  | .text s => s
  | .elem _ _ cs => textOfList cs
def textOfList : NodeList → String
  | .nil => ""
  | .cons x xs => textOfNode x ++ textOfList xs
end

/-- Python `str.strip()`: drop whitespace from both ends. -/
def pyStrip (s : String) : String :=
  String.mk (((s.data.dropWhile Char.isWhitespace).reverse.dropWhile
    Char.isWhitespace).reverse)

mutual
/-- `soup(["script", "style"])` + `decompose()` (run, lines 254-256): remove
every `script` and `style` element, subtree included. -/
def stripNode : Node → Option Node
  | .text s => some (.text s)
  | .elem n a cs =>
    if n == "script" || n == "style" then none
    else some (.elem n a (stripChildren cs))
def stripChildren : NodeList → NodeList
  | .nil => .nil
  | .cons x xs =>
    match stripNode x with
    | none => stripChildren xs
    | some y => .cons y (stripChildren xs)
end

/-- Does the element satisfy the attribute dictionary of a tag rule
(`soup.find(tag_name, tag_identifier)` attribute part): every key/value
pair of the identifier must be an attribute of the element. -/
def identMatches (ident : List (String × String)) (e : Node) : Bool :=
  ident.all (fun kv => (attrsOf e).lookup kv.1 == some kv.2)

/-- Does the element satisfy the tag-name part of a rule: an empty tag name
is falsy in Python, so BeautifulSoup places no constraint on the name. -/
def nameMatches (tn : String) (e : Node) : Bool :=
  tn == "" || nameOf e == tn

/-- The match set of one tag rule, in document order (get_target,
lines 196-213).  When the identifier carries an `id` key the code calls
`soup.find(id=...)` / `find_all(id=...)`, which matches on the `id`
attribute alone and ignores the rule's tag name and remaining attributes;
otherwise it calls `find(tag_name, tag_identifier)`. -/
def findMatches (tn : String) (ident : List (String × String)) (d : Doc) :
    List Node :=
  match ident.lookup "id" with
  | some v => (elemsOfList d).filter (fun e => (attrsOf e).lookup "id" == some v)
  | none => (elemsOfList d).filter (fun e => nameMatches tn e && identMatches ident e)

/-- Values produced by resolution: `get_attr` / `get_text` return a Python
list of strings, except for the nullable-and-falsy guard which returns the
bare empty string. -/
inductive Value where
  | str : String → Value
  | list : List String → Value
deriving DecidableEq

/-- Python truthiness of a resolved value (`if confirmation_tag:`,
`if tag:`): a string is truthy iff non-empty, a list iff non-empty. -/
def Value.truthy : Value → Bool
  | .str s => !(s == "")
  | .list xs => !xs.isEmpty

/-- Python runtime failures of the scrapper, made explicit. -/
inductive ScrapError where
  | attributeError
  | unboundLocal
  | nameError
  | valueError : String → ScrapError
deriving DecidableEq

/-- A target dictionary (docstring of `ContentWebScrapper`).
`attr = none` models an absent `attr` key; `nullable` is the truthiness of
`target.get('nullable')` (absent key ⇒ `false`); `all` is true exactly when
the `all` key is present with value `True` (the code tests
`'all' in target.keys()` and then `target['all'] is True`). -/
structure Target where
  tag_identifiers : List (String × List (String × String))
  attr : Option String := none
  nullable : Bool := false
  all : Bool := false

/-- The rule loop of `get_target` (lines 196-216).  Mirrors the Python
`for ... if tag: break` exactly: each iteration binds `tag` to
`find_all(...)` (a plain element list) in the `all` case or to
`[find(...)]` (a one-element list holding `find`'s result, possibly `None`)
otherwise; a truthy (non-empty) `tag` breaks; after a full loop `tag` keeps
the last rule's value; an empty rule list leaves `tag` unbound
(UnboundLocalError), modelled as `none`. -/
def ruleLoop (all : Bool) (rules : List (String × List (String × String)))
    (d : Doc) : Option (List (Option Node)) :=
  match rules with
  | [] => none
  | (tn, ident) :: rest =>
    let tag : List (Option Node) :=
      if all then (findMatches tn ident d).map some
      else [(findMatches tn ident d).head?]
    if tag.isEmpty then
      match rest with
      | [] => some tag
      | _ :: _ => ruleLoop all rest d
    else some tag

/-- A Python list comprehension whose body may raise: elements are
evaluated left to right and the first raise aborts the whole list. -/
def comprehend {α β : Type} (f : α → Except ScrapError β) :
    List α → Except ScrapError (List β)
  | [] => .ok []
  | x :: xs =>
    match f x with
    | .error e => .error e
    | .ok y =>
      match comprehend f xs with
      | .error e => .error e
      | .ok ys => .ok (y :: ys)

/-- `get_attr` (lines 139-151): empty string when nullable and `tag` is
falsy; otherwise `[t.get(attr).strip() for t in tag]`, where `t` being
`None` or the attribute being absent raises AttributeError. -/
def get_attr (tag : List (Option Node)) (attr : String) (nullable : Bool) :
    Except ScrapError Value :=
  if nullable && tag.isEmpty then .ok (.str "")
  else
    match comprehend (fun t =>
      match t with
      | none => .error ScrapError.attributeError
      | some e =>
        match (attrsOf e).lookup attr with
        | none => .error ScrapError.attributeError
        | some v => .ok (pyStrip v)) tag with
    | .error e => .error e
    | .ok xs => .ok (.list xs)

/-- `get_text` (lines 153-164): empty string when nullable and `tag` is
falsy; otherwise `[t.get_text().strip() for t in tag]`, where `t` being
`None` raises AttributeError. -/
def get_text (tag : List (Option Node)) (nullable : Bool) :
    Except ScrapError Value :=
  if nullable && tag.isEmpty then .ok (.str "")
  else
    match comprehend (fun t =>
      match t with
      | none => .error ScrapError.attributeError
      | some e => .ok (pyStrip (textOfNode e))) tag with
    | .error e => .error e
    | .ok xs => .ok (.list xs)

/-- `get_target` (lines 166-224): run the rule loop, then dispatch on the
presence of the `attr` key. -/
def get_target (t : Target) (d : Doc) : Except ScrapError Value :=
  match ruleLoop t.all t.tag_identifiers d with
  | none => .error ScrapError.unboundLocal
  | some tag =>
    match t.attr with
    | some a => get_attr tag a t.nullable
    | none => get_text tag t.nullable

/-- The forced flag write `self.page_load_checker['nullable'] = True`
(check_page_loaded, line 123). -/
def forcedNullable (t : Target) : Target :=
  { t with nullable := true }

/-- The polling loop of `check_page_loaded` (lines 126-137): while not
found and budget non-zero, sleep one tick, read `driver.page_source`
(modelled as the stream `polls`, one fresh snapshot per read), resolve the
checker, set `found` on a truthy result, decrement the budget.  Returns the
final `found` together with the number of iterations executed (which is
also the index of the next unread snapshot). -/
def pollLoop (c : Target) (polls : Nat → Doc) (i : Nat) :
    Nat → Except ScrapError (Bool × Nat)
  | 0 => .ok (false, i)
  | d + 1 => do
    let v ← get_target c (polls i)
    if v.truthy then .ok (true, i + 1)
    else pollLoop c polls (i + 1) d

/-- `check_page_loaded` (lines 88-137): force the checker's `nullable` key
to `True`, then poll with a one-second tick against the budget
`max_delay`. -/
def check_page_loaded (checker : Target) (polls : Nat → Doc)
    (max_delay : Nat) : Except ScrapError (Bool × Nat) :=
  pollLoop (forcedNullable checker) polls 0 max_delay

/-- Scrapper work modes (class `Mode`). -/
inductive Mode where
  | STATIC
  | DYNAMIC
  | SOUP
deriving DecidableEq

/-- The target/extra-function resolution stage of `run` (lines 258-268):
resolve each declared target against the document, then apply each extra
function to it, assembling the result dictionary in order. -/
def resolveStage (targets : Option (List (String × Target)))
    (extras : Option (List (String × (Doc → Value)))) (d : Doc) :
    Except ScrapError (List (String × Value)) := do
  let base ← (match targets with
    | none => .ok []
    | some ts => ts.mapM (fun kt => do
        let v ← get_target kt.2 d
        .ok (kt.1, v)))
  let ex := (match extras with
    | none => []
    | some fs => fs.map (fun kf => (kf.1, kf.2 d)))
  .ok (base ++ ex)

/-- The mode dispatch of `run` (lines 234-252).  DYNAMIC with no driver
executes `init_selenium_driver()`, a reference to an undefined module-level
name (the function exists only as a static method of the class), so Python
raises NameError; with a driver, it navigates, optionally runs the load
poll (default budget 30), then reads `page_source` once more.  STATIC
fetches and parses the URL.  SOUP requires a pre-supplied document and
raises `ValueError('soup cannot be empty')` otherwise. -/
def obtainDoc (mode : Mode) (soup : Option Doc)
    (page_load_checker : Option Target) (driver : Option (Nat → Doc))
    (fetch : String → Doc) (u : String) : Except ScrapError Doc :=
  match mode with
  | .DYNAMIC =>
    match driver with
    | none => .error ScrapError.nameError
    | some pages =>
      match page_load_checker with
      | none => .ok (pages 0)
      | some c => do
        let r ← check_page_loaded c pages 30
        .ok (pages r.2)
  | .STATIC => .ok (fetch u)
  | .SOUP =>
    match soup with
    | none => .error (ScrapError.valueError "soup cannot be empty")
    | some d => .ok d

/-- `run` (lines 226-268): reject a missing URL first, obtain the document
by mode, strip `script` / `style` elements, then resolve targets and extra
functions. -/
def run (url : Option String) (mode : Mode) (soup : Option Doc)
    (page_load_checker : Option Target)
    (targets : Option (List (String × Target)))
    (extras : Option (List (String × (Doc → Value))))
    (driver : Option (Nat → Doc)) (fetch : String → Doc) :
    Except ScrapError (List (String × Value)) :=
  match url with
  | none => .error (ScrapError.valueError "url cannot be empty")
  | some u => do
    let doc ← obtainDoc mode soup page_load_checker driver fetch u
    resolveStage targets extras (stripChildren doc)


/-- Boolean test: no rule of the target matches any element of the
document. -/
def noRuleMatches (t : Target) (d : Doc) : Bool :=
  t.tag_identifiers.all (fun r => (findMatches r.1 r.2 d).isEmpty)

/-- The target resolves without a Python error to a falsy value. -/
def resolvesFalsy (t : Target) (d : Doc) : Prop :=
  ∃ v, get_target t d = .ok v ∧ v.truthy = false

/-- The target resolves without a Python error to a truthy value. -/
def resolvesTruthy (t : Target) (d : Doc) : Prop :=
  ∃ v, get_target t d = .ok v ∧ v.truthy = true

/-- An element name that survived the script/style stripping pass. -/
def cleanName (e : Node) : Bool :=
  !(nameOf e == "script") && !(nameOf e == "style")

/-- Test document: exactly one `div` of class `a` with text `" hello "`. -/
def docOneDiv : Doc :=
  .cons (.elem "div" [("class", "a")] (.cons (.text " hello ") .nil)) .nil

/-- Test document: exactly one `b` element with text `"hi"`. -/
def docOneB : Doc :=
  .cons (.elem "b" [] (.cons (.text "hi") .nil)) .nil

/-- Test document: a `script` element followed by a `div` with id `x`. -/
def docScripted : Doc :=
  .cons (.elem "script" [] (.cons (.text "ignored()") .nil))
    (.cons (.elem "div" [("id", "x")] (.cons (.text "hello") .nil)) .nil)

/-- Test load checker in `all` mode for the `div` of class `a`. -/
def chkW : Target :=
  { tag_identifiers := [("div", [("class", "a")])], all := true }

/-- Test nullable `all`-mode target for an absent `p` element. -/
def tNullAll : Target :=
  { tag_identifiers := [("p", [])], nullable := true, all := true }

/-- Test page-source stream whose document matches from the third read on. -/
def pollsMatch3 : Nat → Doc := fun i => if 2 ≤ i then docOneDiv else .nil

/-- Test page-source stream that never serves a matching document. -/
def pollsNever : Nat → Doc := fun _ => .nil

@[simp]
theorem except_ok_bind {ε α β : Type} (a : α) (f : α → Except ε β) :
    (Except.ok a >>= f) = f a := rfl

@[simp]
theorem except_error_bind {ε α β : Type} (e : ε) (f : α → Except ε β) :
    ((Except.error e : Except ε α) >>= f) = .error e := rfl

/-- In `all` mode a rule whose `find_all` comes back empty is falsy, so the
loop moves on; when no rule of a non-empty list matches, `tag` ends as the
empty list. -/
theorem ruleLoop_all_no_match (rules : List (String × List (String × String)))
    (d : Doc) (hne : rules ≠ [])
    (h : rules.all (fun r => (findMatches r.1 r.2 d).isEmpty) = true) :
    ruleLoop true rules d = some [] := by
  induction rules with
  | nil => exact absurd rfl hne
  | cons r rest ih =>
    obtain ⟨tn, ident⟩ := r
    rw [List.all_cons, Bool.and_eq_true] at h
    obtain ⟨h1, h2⟩ := h
    rw [List.isEmpty_iff] at h1
    cases rest with
    | nil => simp [ruleLoop, h1]
    | cons r2 rest2 =>
      have hrec := ih (by simp) h2
      calc ruleLoop true ((tn, ident) :: r2 :: rest2) d
          = ruleLoop true (r2 :: rest2) d := by simp [ruleLoop, h1]
        _ = some [] := hrec

/-- In single-match mode the first rule always breaks the loop: `tag` is
the one-element list holding `find`'s optional result. -/
theorem ruleLoop_single (tn : String) (ident : List (String × String))
    (rest : List (String × List (String × String))) (d : Doc) :
    ruleLoop false ((tn, ident) :: rest) d
      = some [(findMatches tn ident d).head?] := by
  simp [ruleLoop]

/-- A nullable `all`-mode target with zero matches resolves to the bare
empty string. -/
theorem get_target_all_nullable_no_match (t : Target) (d : Doc)
    (hall : t.all = true) (hnull : t.nullable = true)
    (hne : t.tag_identifiers ≠ []) (h : noRuleMatches t d = true) :
    get_target t d = .ok (.str "") := by
  have hr := ruleLoop_all_no_match t.tag_identifiers d hne h
  unfold get_target
  rw [hall, hr]
  cases t.attr with
  | none => simp [get_text, hnull]
  | some a => simp [get_attr, hnull]

/-- A single-match target whose first rule finds nothing reaches extraction
with `tag = [None]` and raises AttributeError, whatever `nullable` says. -/
theorem get_target_single_first_none (t : Target) (d : Doc) (tn : String)
    (ident : List (String × String))
    (rest : List (String × List (String × String)))
    (hall : t.all = false) (hrules : t.tag_identifiers = (tn, ident) :: rest)
    (hfm : (findMatches tn ident d).head? = none) :
    get_target t d = .error .attributeError := by
  unfold get_target
  rw [hrules, hall, ruleLoop_single, hfm]
  cases t.attr with
  | none => cases hn : t.nullable <;> simp [get_text, comprehend]
  | some a => cases hn : t.nullable <;> simp [get_attr, comprehend]

/-- A single-match target without `attr` whose first rule finds an element
resolves to the one-element list of that element's stripped text. -/
theorem get_target_single_first_some (t : Target) (d : Doc) (tn : String)
    (ident : List (String × String))
    (rest : List (String × List (String × String))) (e : Node)
    (hall : t.all = false) (hattr : t.attr = none)
    (hrules : t.tag_identifiers = (tn, ident) :: rest)
    (hfm : (findMatches tn ident d).head? = some e) :
    get_target t d = .ok (.list [pyStrip (textOfNode e)]) := by
  unfold get_target
  rw [hrules, hall, ruleLoop_single, hfm, hattr]
  cases hn : t.nullable <;> simp [get_text, comprehend]

mutual
/-- Any node that survives stripping contains no script/style element. -/
theorem stripNode_clean : ∀ (x y : Node), stripNode x = some y →
    ((elemsOfNode y).all cleanName) = true
  | .text s, y, h => by
    simp only [stripNode, Option.some.injEq] at h
    subst h
    simp [elemsOfNode]
  | .elem n a cs, y, h => by
    by_cases hns : (n == "script" || n == "style") = true
    · simp [stripNode, hns] at h
    · simp only [stripNode, hns, Bool.false_eq_true, if_false,
        Option.some.injEq] at h
      subst h
      have hrec := stripChildren_clean cs
      simp only [Bool.or_eq_true, beq_iff_eq, not_or] at hns
      simp [elemsOfNode, List.all_cons, cleanName, nameOf, hns.1, hns.2, hrec]
/-- The stripped child list contains no script/style element. -/
theorem stripChildren_clean : ∀ (l : NodeList),
    ((elemsOfList (stripChildren l)).all cleanName) = true
  | .nil => by simp [stripChildren, elemsOfList]
  | .cons x xs => by
    cases hx : stripNode x with
    | none => simpa [stripChildren, hx] using stripChildren_clean xs
    | some y =>
      have h1 := stripNode_clean x y hx
      have h2 := stripChildren_clean xs
      simp [stripChildren, hx, elemsOfList, List.all_append, h1, h2]
end

/-- After stripping, a rule that filters on the `script` or `style` tag
name (and not on an `id`) matches nothing. -/
theorem findMatches_script_style_after_strip (tn : String)
    (ident : List (String × String)) (d : Doc)
    (hid : ident.lookup "id" = none)
    (htn : tn = "script" ∨ tn = "style") :
    findMatches tn ident (stripChildren d) = [] := by
  unfold findMatches
  rw [hid, List.filter_eq_nil_iff]
  intro e he
  have hall := (List.all_eq_true).mp (stripChildren_clean d) e he
  simp only [cleanName, Bool.and_eq_true, Bool.not_eq_true', beq_eq_false_iff_ne,
    ne_eq] at hall
  intro habs
  rw [Bool.and_eq_true] at habs
  have hname := habs.1
  rw [nameMatches, Bool.or_eq_true] at hname
  rcases htn with h | h <;> subst h
  · rcases hname with h' | h'
    · simp at h'
    · exact hall.1 (by simpa using h')
  · rcases hname with h' | h'
    · simp at h'
    · exact hall.2 (by simpa using h')

/-- One poll iteration on a falsy resolution continues with one less unit
of budget. -/
theorem pollLoop_step_falsy (c : Target) (polls : Nat → Doc) (i d : Nat)
    (h : resolvesFalsy c (polls i)) :
    pollLoop c polls i (d + 1) = pollLoop c polls (i + 1) d := by
  obtain ⟨v, hv, ht⟩ := h
  simp [pollLoop, hv, ht]

/-- One poll iteration on a truthy resolution stops with `found = True`. -/
theorem pollLoop_step_truthy (c : Target) (polls : Nat → Doc) (i d : Nat)
    (h : resolvesTruthy c (polls i)) :
    pollLoop c polls i (d + 1) = .ok (true, i + 1) := by
  obtain ⟨v, hv, ht⟩ := h
  simp [pollLoop, hv, ht]

/-- Claim C1, counterexample.  A target with `matchAll=false` and no
`attr`, against a document with exactly one element matching one of its tag
rules, does not return a single string: when the matching rule comes first
the result is the one-element list `["hello"]` (a sequence, not the string
constructor), and when the only matching element belongs to the second rule
the resolution raises AttributeError instead of returning anything. -/
theorem C1_counterexample :
    get_target { tag_identifiers := [("div", [("class", "a")])] } docOneDiv
      = .ok (.list ["hello"]) ∧
    get_target { tag_identifiers := [("p", []), ("div", [("class", "a")])] }
      docOneDiv = .error .attributeError :=
  ⟨rfl, rfl⟩

/-- Claim C1 (amended): for a target with `matchAll=false` and no `attr`
whose first tag rule finds an element, resolving returns the one-element
sequence holding that element's trimmed text content (a list, not a bare
string; with `matchAll=false` rules after the first are never consulted,
so the match must come from the first rule). -/
theorem C1_single_match_returns_singleton (t : Target) (d : Doc)
    (tn : String) (ident : List (String × String))
    (rest : List (String × List (String × String))) (e : Node)
    (hall : t.all = false) (hattr : t.attr = none)
    (hrules : t.tag_identifiers = (tn, ident) :: rest)
    (hfind : (findMatches tn ident d).head? = some e) :
    get_target t d = .ok (.list [pyStrip (textOfNode e)]) :=
  get_target_single_first_some t d tn ident rest e hall hattr hrules hfind

/-- Claim C1, witness of the amended theorem at a concrete document with
exactly one matching element. -/
theorem C1_witness :
    get_target { tag_identifiers := [("div", [("class", "a")])] } docOneDiv
      = .ok (.list ["hello"]) :=
  C1_single_match_returns_singleton
    { tag_identifiers := [("div", [("class", "a")])] } docOneDiv
    "div" [("class", "a")] []
    (.elem "div" [("class", "a")] (.cons (.text " hello ") .nil))
    rfl rfl rfl rfl

/-- Claim C2, counterexample.  A nullable target with zero matches raises
AttributeError when `matchAll=false` (the claim says it returns an empty
string and never errors), and returns the bare empty string rather than an
empty sequence when `matchAll=true`. -/
theorem C2_counterexample :
    get_target { tag_identifiers := [("p", [])], nullable := true } docOneDiv
      = .error .attributeError ∧
    get_target { tag_identifiers := [("p", [])], nullable := true, all := true }
      docOneDiv = .ok (.str "") :=
  ⟨rfl, rfl⟩

/-- Claim C2 (amended): for a target with `nullable=true`, a non-empty rule
list and zero matches in the document, resolution returns the empty string
(not an empty sequence) when `matchAll=true`, and raises AttributeError
(find's `None` wrapped in a one-element truthy list defeats the nullable
guard) when `matchAll=false`. -/
theorem C2_nullable_no_match (t : Target) (d : Doc)
    (hnull : t.nullable = true) (hne : t.tag_identifiers ≠ [])
    (hnone : noRuleMatches t d = true) :
    (t.all = true → get_target t d = .ok (.str "")) ∧
    (t.all = false → get_target t d = .error .attributeError) := by
  constructor
  · intro hall
    exact get_target_all_nullable_no_match t d hall hnull hne hnone
  · intro hall
    cases hr : t.tag_identifiers with
    | nil => exact absurd hr hne
    | cons r rest =>
      obtain ⟨tn, ident⟩ := r
      have h1 : findMatches tn ident d = [] := by
        rw [noRuleMatches, hr, List.all_cons, Bool.and_eq_true] at hnone
        exact List.isEmpty_iff.mp hnone.1
      exact get_target_single_first_none t d tn ident rest hall hr
        (by rw [h1]; rfl)

/-- Claim C2, witness of the amended theorem at a concrete document with
no match, in both `matchAll` modes. -/
theorem C2_witness :
    get_target { tag_identifiers := [("p", [])], nullable := true, all := true }
      docOneDiv = .ok (.str "") ∧
    get_target { tag_identifiers := [("p", [])], nullable := true } docOneDiv
      = .error .attributeError :=
  ⟨(C2_nullable_no_match
      { tag_identifiers := [("p", [])], nullable := true, all := true }
      docOneDiv rfl (by simp) rfl).1 rfl,
   (C2_nullable_no_match
      { tag_identifiers := [("p", [])], nullable := true }
      docOneDiv rfl (by simp) rfl).2 rfl⟩

/-- Claim C3, evaluation at the failing input.  With the default
`matchAll=false`, rule A `("a", class=x)` matches nothing in a document
whose only element is `<b>hi</b>`, yet resolution raises AttributeError
instead of returning rule B's result: `[soup.find(...)] = [None]` is
truthy, so the loop breaks at rule A and rule B is never consulted,
contradicting the code's own docstring ("the search stops once the tag is
found").  The same target with `matchAll=true` exhibits the documented
fallback and returns rule B's result. -/
theorem C3_fallback_divergence :
    get_target { tag_identifiers := [("a", [("class", "x")]), ("b", [])] }
      docOneB = .error .attributeError ∧
    get_target
      { tag_identifiers := [("a", [("class", "x")]), ("b", [])], all := true }
      docOneB = .ok (.list ["hi"]) :=
  ⟨rfl, rfl⟩

/-- Claim C4, evaluation at the failing input.  A target with
`nullable=false` and zero matches does not signal any typed
MissingRequiredTarget failure: with `matchAll=false` it raises the
incidental AttributeError of `None.get_text()`, and with `matchAll=true` it
silently returns an empty list. -/
theorem C4_missing_required_divergence :
    get_target { tag_identifiers := [("p", [])] } docOneDiv
      = .error .attributeError ∧
    get_target { tag_identifiers := [("p", [])], all := true } docOneDiv
      = .ok (.list []) :=
  ⟨rfl, rfl⟩

/-- Claim C5: `check_page_loaded` with a page-source stream whose first two
reads resolve falsy (no match) and whose third read resolves truthy (a
match), under a budget of 5 seconds, returns `True` after exactly 3 poll
iterations; with a stream whose reads always resolve falsy and a budget of
2, it returns `False` after exactly 2 iterations (one one-second sleep per
iteration, budget decremented by one per iteration). -/
theorem C5_poll_iteration_counts (checker : Target)
    (pollsA pollsB : Nat → Doc)
    (hA0 : resolvesFalsy (forcedNullable checker) (pollsA 0))
    (hA1 : resolvesFalsy (forcedNullable checker) (pollsA 1))
    (hA2 : resolvesTruthy (forcedNullable checker) (pollsA 2))
    (hB0 : resolvesFalsy (forcedNullable checker) (pollsB 0))
    (hB1 : resolvesFalsy (forcedNullable checker) (pollsB 1)) :
    check_page_loaded checker pollsA 5 = .ok (true, 3) ∧
    check_page_loaded checker pollsB 2 = .ok (false, 2) := by
  constructor
  · show pollLoop (forcedNullable checker) pollsA 0 (4 + 1) = .ok (true, 3)
    rw [pollLoop_step_falsy _ _ _ _ hA0]
    show pollLoop (forcedNullable checker) pollsA 1 (3 + 1) = .ok (true, 3)
    rw [pollLoop_step_falsy _ _ _ _ hA1]
    show pollLoop (forcedNullable checker) pollsA 2 (2 + 1) = .ok (true, 3)
    rw [pollLoop_step_truthy _ _ _ _ hA2]
  · show pollLoop (forcedNullable checker) pollsB 0 (1 + 1) = .ok (false, 2)
    rw [pollLoop_step_falsy _ _ _ _ hB0]
    show pollLoop (forcedNullable checker) pollsB 1 (0 + 1) = .ok (false, 2)
    rw [pollLoop_step_falsy _ _ _ _ hB1]
    rfl

/-- Claim C5, witness: a concrete `all`-mode checker against a stream that
serves the matching document from the third read on (budget 5), and against
a stream that never serves it (budget 2). -/
theorem C5_witness :
    check_page_loaded chkW pollsMatch3 5 = .ok (true, 3) ∧
    check_page_loaded chkW pollsNever 2 = .ok (false, 2) :=
  C5_poll_iteration_counts chkW pollsMatch3 pollsNever
    ⟨.str "", rfl, rfl⟩ ⟨.str "", rfl, rfl⟩ ⟨.list ["hello"], rfl, rfl⟩
    ⟨.str "", rfl, rfl⟩ ⟨.str "", rfl, rfl⟩

/-- Claim C6: when the load poll times out and reports `False`, `run` in
DYNAMIC mode discards that result — no error, no retry — and proceeds to
strip and resolve against the page source the session exposes after the
poll (the read following the `k` polled snapshots). -/
theorem C6_timeout_result_ignored (u : String) (checker : Target)
    (soup : Option Doc) (targets : Option (List (String × Target)))
    (extras : Option (List (String × (Doc → Value)))) (pages : Nat → Doc)
    (fetch : String → Doc) (k : Nat)
    (h : check_page_loaded checker pages 30 = .ok (false, k)) :
    run (some u) .DYNAMIC soup (some checker) targets extras (some pages)
      fetch = resolveStage targets extras (stripChildren (pages k)) := by
  simp [run, obtainDoc, h]

/-- Claim C6, witness: a checker that never matches exhausts the default
budget of 30 and `run` still resolves the declared target against the
markup of snapshot 30. -/
theorem C6_witness :
    check_page_loaded chkW pollsNever 30 = .ok (false, 30) ∧
    run (some "u") .DYNAMIC none (some chkW) (some [("k1", tNullAll)]) none
      (some pollsNever) (fun _ => .nil)
      = resolveStage (some [("k1", tNullAll)]) none
          (stripChildren (pollsNever 30)) :=
  ⟨rfl, C6_timeout_result_ignored "u" chkW none (some [("k1", tNullAll)])
    none pollsNever (fun _ => .nil) 30 rfl⟩

/-- Claim C7: in every mode, `run` strips all `script` and `style` elements
after obtaining the document and resolves targets and extra functions only
against the stripped tree; the stripped tree contains no script or style
element at all, so a rule filtering on either tag name (without an `id`
selector, which would bypass tag names) finds nothing. -/
theorem C7_strip_before_resolution (u : String) (d : Doc) (soup : Option Doc)
    (checker : Target) (targets : Option (List (String × Target)))
    (extras : Option (List (String × (Doc → Value))))
    (driver : Option (Nat → Doc)) (fetch : String → Doc) (pages : Nat → Doc)
    (b : Bool) (k : Nat) (ident : List (String × String))
    (hchk : check_page_loaded checker pages 30 = .ok (b, k))
    (hid : ident.lookup "id" = none) :
    run (some u) .SOUP (some d) (some checker) targets extras driver fetch
      = resolveStage targets extras (stripChildren d) ∧
    run (some u) .STATIC soup (some checker) targets extras driver fetch
      = resolveStage targets extras (stripChildren (fetch u)) ∧
    run (some u) .DYNAMIC soup (some checker) targets extras (some pages)
      fetch = resolveStage targets extras (stripChildren (pages k)) ∧
    findMatches "script" ident (stripChildren d) = [] ∧
    findMatches "style" ident (stripChildren d) = [] ∧
    (elemsOfList (stripChildren d)).all cleanName = true := by
  refine ⟨rfl, rfl, ?_, ?_, ?_, stripChildren_clean d⟩
  · simp [run, obtainDoc, hchk]
  · exact findMatches_script_style_after_strip "script" ident d hid (Or.inl rfl)
  · exact findMatches_script_style_after_strip "style" ident d hid (Or.inr rfl)

/-- Claim C7, witness: a document holding a `script` element and a `div`;
after `run` the div's text is extracted, a target on the `script` tag finds
nothing, and the poll hypothesis is discharged by a timed-out concrete
poll. -/
theorem C7_witness :
    run (some "u") .SOUP (some docScripted) (some chkW)
      (some [("k1", tNullAll)]) none none (fun _ => .nil)
      = resolveStage (some [("k1", tNullAll)]) none
          (stripChildren docScripted) ∧
    findMatches "script" [] (stripChildren docScripted) = [] ∧
    (elemsOfList (stripChildren docScripted)).all cleanName = true :=
  ⟨(C7_strip_before_resolution "u" docScripted none chkW
      (some [("k1", tNullAll)]) none none (fun _ => .nil) pollsNever
      false 30 [] rfl rfl).1,
   (C7_strip_before_resolution "u" docScripted none chkW
      (some [("k1", tNullAll)]) none none (fun _ => .nil) pollsNever
      false 30 [] rfl rfl).2.2.2.1,
   (C7_strip_before_resolution "u" docScripted none chkW
      (some [("k1", tNullAll)]) none none (fun _ => .nil) pollsNever
      false 30 [] rfl rfl).2.2.2.2.2⟩

/-- Claim C8, counterexample.  An absent tag during polling is treated as
an error for a `matchAll=false` checker: the forced `nullable=True` does
not stop `get_target` from raising AttributeError on the `[None]` wrapper,
so `check_page_loaded` propagates the error instead of polling on. -/
theorem C8_counterexample :
    check_page_loaded { tag_identifiers := [("div", [("class", "a")])] }
      pollsNever 2 = .error .attributeError :=
  rfl

/-- Claim C8 (amended): `check_page_loaded` overwrites the checker's
nullable flag with `True` before any polling, so its result never depends
on the caller-supplied value; for a `matchAll=true` checker this makes an
absent tag resolve to the falsy empty string rather than an error — but a
`matchAll=false` checker still raises AttributeError on an absent tag (see
the counterexample). -/
theorem C8_forced_nullable (checker : Target) (b : Bool) (polls : Nat → Doc)
    (n : Nat) (d : Doc) (hall : checker.all = true)
    (hne : checker.tag_identifiers ≠ [])
    (hnone : noRuleMatches checker d = true) :
    check_page_loaded { checker with nullable := b } polls n
      = check_page_loaded checker polls n ∧
    get_target (forcedNullable checker) d = .ok (.str "") := by
  constructor
  · cases checker
    rfl
  · exact get_target_all_nullable_no_match (forcedNullable checker) d hall
      rfl hne hnone

/-- Claim C8, witness: the result of a poll is unchanged when the caller
sets `nullable = True` explicitly, and the forced checker resolves an
absent tag to the empty string. -/
theorem C8_witness :
    check_page_loaded
      { tag_identifiers := [("p", [])], nullable := true, all := true }
      pollsNever 1
      = check_page_loaded { tag_identifiers := [("p", [])], all := true }
          pollsNever 1 ∧
    get_target (forcedNullable { tag_identifiers := [("p", [])], all := true })
      docOneDiv = .ok (.str "") :=
  C8_forced_nullable { tag_identifiers := [("p", [])], all := true } true
    pollsNever 1 docOneDiv rfl (by simp) rfl

/-- Claim C9, evaluation at the failing input.  In DYNAMIC mode with no
caller-supplied driver, `run` executes the undefined module-level name
`init_selenium_driver` (the function exists only as a static method of the
class), so Python raises NameError — a generic failure, not the typed
InvalidInput (ValueError) the spec mandates. -/
theorem C9_dynamic_missing_driver :
    run (some "https://example.com/") .DYNAMIC none none none none none
      (fun _ => .nil) = .error ScrapError.nameError :=
  rfl

/-- Claim C10: `run` raises ValueError "url cannot be empty" whenever no
URL is configured, in every mode — the check precedes the mode dispatch, so
even SOUP mode with a valid pre-supplied document never reaches target
resolution. -/
theorem C10_missing_url_every_mode (mode : Mode) (soup : Option Doc)
    (plc : Option Target) (targets : Option (List (String × Target)))
    (extras : Option (List (String × (Doc → Value))))
    (driver : Option (Nat → Doc)) (fetch : String → Doc) :
    run none mode soup plc targets extras driver fetch
      = .error (.valueError "url cannot be empty") :=
  rfl

end WebScrapper
